import Mathlib

/-!
Verification of the API Gateway REST API resource handler
(src/aws/resource_aws_api_gateway_rest_api.go) against its specification.

The Go file is a Terraform resource binding: schema declaration, request
marshaling for Create, response unmarshaling for Read, a diff-to-patch-operation
translator for Update, and a Delete wrapped in the SDK retry helper.  The
definitions below are a shallow embedding of that code: the desired/actual
state record mirrors the declared schema, remote calls are made explicit by
passing each call's response in as a value and recording the calls issued, and
the pure request/patch construction is translated function by function.
-/

namespace ApiGatewayRestApi

/-- An error returned by the remote service, as the code observes it through
awserr.Error: a machine-readable code and a message. -/
structure AwsError where
  code : String
  message : String
deriving DecidableEq

/-- apigateway.PatchOperation: op, path and optional value (the Go struct holds
pointers; remove/add operations leave Value unset). -/
structure PatchOperation where
  op : String
  path : String
  value : Option String
deriving DecidableEq

/-- One endpoint_configuration block (and also the SDK's
apigateway.EndpointConfiguration): its list of endpoint types. -/
structure EndpointBlock where
  types : List String
deriving DecidableEq

/-- The local state record for one resource instance: the schema's fields
(lines 26-100) plus the instance identifier d.Id().  Optional string fields
use the Go zero value "" for "unset" and the optional integer field uses the
schema default -1, exactly as the schema declares; d.GetOk is true exactly on
a non-zero value. -/
structure LocalRecord where
  id : String
  name : String
  description : String
  policy : String
  binary_media_types : List String
  minimum_compression_size : Int
  body : String
  endpoint_configuration : List EndpointBlock
  root_resource_id : String
  created_date : String
  execution_arn : String
deriving DecidableEq

/-- The old and new state a Terraform update sees: d.Get reads new, d.GetChange
returns both, d.HasChange compares them. -/
structure ResourceData where
  old : LocalRecord
  new : LocalRecord
deriving DecidableEq

/-- A record with every field at its schema zero/default value
(minimum_compression_size defaults to -1, line 58). -/
def blankRecord : LocalRecord :=
  { id := ""
    name := ""
    description := ""
    policy := ""
    binary_media_types := []
    minimum_compression_size := -1
    body := ""
    endpoint_configuration := []
    root_resource_id := ""
    created_date := ""
    execution_arn := "" }

/-- The value of the nested key "endpoint_configuration.0.types": the first
block's types list, or the zero value when there is no block. -/
def endpointTypes0 (s : LocalRecord) : List String :=
  match s.endpoint_configuration with
  | [] => []
  | m :: _ => m.types

/-- expandApiGatewayEndpointConfiguration, lines 371-383: nil for an empty
list, otherwise the first block's types wrapped in the SDK struct. -/
def expandApiGatewayEndpointConfiguration (l : List EndpointBlock) : Option EndpointBlock :=
  match l with
  | [] => none
  | m :: _ => some { types := m.types }

/-- apigateway.CreateRestApiInput as the create path fills it: every field but
the name is a pointer left nil when the parameter is omitted. -/
structure CreateRestApiInput where
  name : String
  description : Option String
  endpointConfiguration : Option EndpointBlock
  policy : Option String
  binaryMediaTypes : Option (List String)
  minimumCompressionSize : Option Int
deriving DecidableEq

/-- The request-construction part of resourceAwsApiGatewayRestApiCreate, lines
104-134: description only when non-empty, endpoint configuration / policy /
binary media types only when d.GetOk holds (the value is non-zero), and
minimum compression size only when it is greater than the -1 sentinel. -/
def resourceAwsApiGatewayRestApiCreateParams (d : LocalRecord) : CreateRestApiInput :=
  { name := d.name
    description := if d.description ≠ "" then some d.description else none
    endpointConfiguration :=
      if d.endpoint_configuration ≠ [] then
        expandApiGatewayEndpointConfiguration d.endpoint_configuration
      else none
    policy := if d.policy ≠ "" then some d.policy else none
    binaryMediaTypes :=
      if d.binary_media_types ≠ [] then some d.binary_media_types else none
    minimumCompressionSize :=
      if d.minimum_compression_size > -1 then some d.minimum_compression_size else none }

/-- Modelled from the spec: escapeJsonPointer is code of this repository that
is not under src/; the spec calls it "JSON-pointer path escaping for keyed
patch operations ... a pure string-escaping utility", which is the standard
JSON-pointer escaping: every "~" becomes "~0" and every "/" becomes "~1". -/
def escapeJsonPointer (path : String) : String :=
  String.mk (path.data.foldr
    (fun c acc =>
      if c = '~' then '~' :: '0' :: acc
      else if c = '/' then '~' :: '1' :: acc
      else c :: acc) [])

/-- resourceAwsApiGatewayRestApiUpdateOperations, lines 236-318: starting from
an empty slice, each changed field appends its patch operations in source
order. -/
def resourceAwsApiGatewayRestApiUpdateOperations (d : ResourceData) : List PatchOperation :=
  let operations : List PatchOperation := []
  let operations :=
    if d.old.name ≠ d.new.name then
      operations ++ [{ op := "replace", path := "/name", value := some d.new.name }]
    else operations
  let operations :=
    if d.old.description ≠ d.new.description then
      operations ++ [{ op := "replace", path := "/description", value := some d.new.description }]
    else operations
  let operations :=
    if d.old.policy ≠ d.new.policy then
      operations ++ [{ op := "replace", path := "/policy", value := some d.new.policy }]
    else operations
  let operations :=
    if d.old.minimum_compression_size ≠ d.new.minimum_compression_size then
      operations ++
        [{ op := "replace"
           path := "/minimumCompressionSize"
           value := some (if d.new.minimum_compression_size > -1 then
             toString d.new.minimum_compression_size else "") }]
    else operations
  let operations :=
    if d.old.binary_media_types ≠ d.new.binary_media_types then
      (operations ++ d.old.binary_media_types.map
        (fun v =>
          { op := "remove"
            path := "/binaryMediaTypes/" ++ escapeJsonPointer v
            value := none }))
      ++ (if d.new.binary_media_types ≠ [] then
            d.new.binary_media_types.map
              (fun v =>
                { op := "add"
                  path := "/binaryMediaTypes/" ++ escapeJsonPointer v
                  value := none })
          else [])
    else operations
  let operations :=
    if endpointTypes0 d.old ≠ endpointTypes0 d.new then
      match d.new.endpoint_configuration with
      | [] => operations
      | m :: _ =>
        operations ++
          [{ op := "replace"
             path := "/endpointConfiguration/types/0"
             value := some (m.types.headD "") }]
    else operations
  operations

/-- The name group of the update operations (lines 239-245). -/
def nameOps (d : ResourceData) : List PatchOperation :=
  if d.old.name ≠ d.new.name then
    [{ op := "replace", path := "/name", value := some d.new.name }]
  else []

/-- The description group of the update operations (lines 247-253). -/
def descriptionOps (d : ResourceData) : List PatchOperation :=
  if d.old.description ≠ d.new.description then
    [{ op := "replace", path := "/description", value := some d.new.description }]
  else []

/-- The policy group of the update operations (lines 255-261). -/
def policyOps (d : ResourceData) : List PatchOperation :=
  if d.old.policy ≠ d.new.policy then
    [{ op := "replace", path := "/policy", value := some d.new.policy }]
  else []

/-- The minimum compression size group of the update operations (lines
263-274): a replace whose value is the decimal rendering above the sentinel
and the empty string at the sentinel -1. -/
def minimumCompressionSizeOps (d : ResourceData) : List PatchOperation :=
  if d.old.minimum_compression_size ≠ d.new.minimum_compression_size then
    [{ op := "replace"
       path := "/minimumCompressionSize"
       value := some (if d.new.minimum_compression_size > -1 then
         toString d.new.minimum_compression_size else "") }]
  else []

/-- The binary media types group of the update operations (lines 276-301): one
remove per old entry then one add per new entry, values escaped into the
path. -/
def binaryMediaTypesOps (d : ResourceData) : List PatchOperation :=
  if d.old.binary_media_types ≠ d.new.binary_media_types then
    d.old.binary_media_types.map
      (fun v =>
        { op := "remove"
          path := "/binaryMediaTypes/" ++ escapeJsonPointer v
          value := none })
    ++ (if d.new.binary_media_types ≠ [] then
          d.new.binary_media_types.map
            (fun v =>
              { op := "add"
                path := "/binaryMediaTypes/" ++ escapeJsonPointer v
                value := none })
        else [])
  else []

/-- The endpoint configuration group of the update operations (lines 303-315):
nothing when the new configuration list is empty. -/
def endpointConfigurationOps (d : ResourceData) : List PatchOperation :=
  if endpointTypes0 d.old ≠ endpointTypes0 d.new then
    match d.new.endpoint_configuration with
    | [] => []
    | m :: _ =>
      [{ op := "replace"
         path := "/endpointConfiguration/types/0"
         value := some (m.types.headD "") }]
  else []

theorem appendIfBlock (c : Prop) [Decidable c] (x a : List PatchOperation) :
    (if c then x ++ a else x) = x ++ (if c then a else []) := by
  split_ifs <;> simp

theorem appendIfBlock2 (c : Prop) [Decidable c] (x r s : List PatchOperation) :
    (if c then (x ++ r) ++ s else x) = x ++ (if c then r ++ s else []) := by
  split_ifs <;> simp

theorem updateOperations_eq_groups (d : ResourceData) :
    resourceAwsApiGatewayRestApiUpdateOperations d =
      nameOps d ++ descriptionOps d ++ policyOps d ++ minimumCompressionSizeOps d
        ++ binaryMediaTypesOps d ++ endpointConfigurationOps d := by
  cases hepc : d.new.endpoint_configuration with
  | nil =>
    simp only [resourceAwsApiGatewayRestApiUpdateOperations, nameOps, descriptionOps, policyOps,
      minimumCompressionSizeOps, binaryMediaTypesOps, endpointConfigurationOps, hepc, ite_self]
    rw [appendIfBlock2]
    simp only [appendIfBlock, ite_self]
    simp [List.append_assoc]
  | cons m rest =>
    simp only [resourceAwsApiGatewayRestApiUpdateOperations, nameOps, descriptionOps, policyOps,
      minimumCompressionSizeOps, binaryMediaTypesOps, endpointConfigurationOps, hepc]
    rw [appendIfBlock2]
    simp only [appendIfBlock]
    simp [List.append_assoc]

theorem bmtPathNe (v : String) :
    "/binaryMediaTypes/" ++ v ≠ "/endpointConfiguration/types/0" := by
  intro hEq
  have h2 := congrArg String.data hEq
  rw [String.data_append] at h2
  have h3 : ("/binaryMediaTypes/" : String).data = '/' :: 'b' :: "inaryMediaTypes/".data := rfl
  have h4 : ("/endpointConfiguration/types/0" : String).data
      = '/' :: 'e' :: "ndpointConfiguration/types/0".data := rfl
  rw [h3, h4, List.cons_append, List.cons_append] at h2
  injection h2 with h5 h6
  injection h6 with h7 h8
  exact absurd h7 (by decide)

/-- C10: the create request carries a description parameter exactly when the
desired description is non-empty; an empty desired description yields no
description parameter at all (nil) rather than an empty-string one. -/
theorem createParams_description_omitted (s : LocalRecord) :
    ((resourceAwsApiGatewayRestApiCreateParams s).description = none ↔ s.description = "")
    ∧ ((resourceAwsApiGatewayRestApiCreateParams s).description = some s.description
        ↔ s.description ≠ "") := by
  unfold resourceAwsApiGatewayRestApiCreateParams
  by_cases h : s.description = "" <;> simp [h]

/-- A desired state whose minimum compression size goes from 100 back to the -1
sentinel, every other field unchanged. -/
def c1Data : ResourceData :=
  { old := { blankRecord with minimum_compression_size := 100 }
    new := blankRecord }

/-- C1 counterexample: with the minimum compression size changed from 100 to the
sentinel -1, the update's patch-operation list does not omit the field — it
contains a replace of /minimumCompressionSize with the empty-string value. -/
theorem minimumCompressionSize_patch_emitted :
    c1Data.new.minimum_compression_size = -1 ∧
    resourceAwsApiGatewayRestApiUpdateOperations c1Data =
      [{ op := "replace", path := "/minimumCompressionSize", value := some "" }] :=
  ⟨rfl, rfl⟩

/-- C1 (amended): for a desired state with minimum-compression-size -1 the create
request omits the parameter entirely; the update's patch-operation list omits the
field only when it is unchanged, and when it changed to -1 it carries exactly one
replace operation for it whose value is the empty string (the wire encoding of
"disable") rather than omitting it. -/
theorem minimumCompressionSize_sentinel (s : LocalRecord) (d : ResourceData)
    (hs : s.minimum_compression_size = -1) (hd : d.new.minimum_compression_size = -1) :
    (resourceAwsApiGatewayRestApiCreateParams s).minimumCompressionSize = none
    ∧ (d.old.minimum_compression_size = -1 → minimumCompressionSizeOps d = [])
    ∧ (d.old.minimum_compression_size ≠ -1 →
        minimumCompressionSizeOps d =
          [{ op := "replace", path := "/minimumCompressionSize", value := some "" }]) := by
  refine ⟨?_, ?_, ?_⟩
  · unfold resourceAwsApiGatewayRestApiCreateParams
    simp [hs]
  · intro h0
    simp [minimumCompressionSizeOps, h0, hd]
  · intro h0
    have hne : d.old.minimum_compression_size ≠ d.new.minimum_compression_size := by
      rw [hd]; exact h0
    simp [minimumCompressionSizeOps, hne, hd, h0]

theorem minimumCompressionSize_sentinel_witness :
    (resourceAwsApiGatewayRestApiCreateParams blankRecord).minimumCompressionSize = none
    ∧ (c1Data.old.minimum_compression_size = -1 → minimumCompressionSizeOps c1Data = [])
    ∧ (c1Data.old.minimum_compression_size ≠ -1 →
        minimumCompressionSizeOps c1Data =
          [{ op := "replace", path := "/minimumCompressionSize", value := some "" }]) :=
  minimumCompressionSize_sentinel blankRecord c1Data rfl rfl

/-- C4: a change of binary_media_types generates exactly one remove operation per
old entry, in old-list order, followed by one add operation per new entry, in
new-list order, each entry's value JSON-pointer-escaped into the path, regardless
of any overlap between the two lists. -/
theorem binaryMediaTypes_remove_then_add (d : ResourceData)
    (h : d.old.binary_media_types ≠ d.new.binary_media_types) :
    binaryMediaTypesOps d =
      d.old.binary_media_types.map
        (fun v =>
          { op := "remove"
            path := "/binaryMediaTypes/" ++ escapeJsonPointer v
            value := none })
      ++ d.new.binary_media_types.map
        (fun v =>
          { op := "add"
            path := "/binaryMediaTypes/" ++ escapeJsonPointer v
            value := none }) := by
  unfold binaryMediaTypesOps
  rw [if_pos h]
  by_cases hn : d.new.binary_media_types = [] <;> simp [hn]

/-- Old binary media types A and B, new B and C: the overlap case of the spec,
here with values that exercise the JSON-pointer escaping of the "/". -/
def c4Data : ResourceData :=
  { old := { blankRecord with binary_media_types := ["image/png", "application/octet"] }
    new := { blankRecord with binary_media_types := ["application/octet", "application/zip"] } }

theorem binaryMediaTypes_remove_then_add_witness :
    binaryMediaTypesOps c4Data =
      [{ op := "remove", path := "/binaryMediaTypes/image~1png", value := none },
       { op := "remove", path := "/binaryMediaTypes/application~1octet", value := none },
       { op := "add", path := "/binaryMediaTypes/application~1octet", value := none },
       { op := "add", path := "/binaryMediaTypes/application~1zip", value := none }] := by
  rw [binaryMediaTypes_remove_then_add c4Data (by decide)]
  rfl

/-- C5: the update diff generator emits the patch operations as one group per
mutable field, the groups concatenated in the fixed source order name,
description, policy, minimum compression size, binary media types, endpoint
configuration type; an unchanged field contributes no operations, and each
changed scalar field contributes exactly its single replace operation. -/
theorem updateOperations_fixed_order (d : ResourceData) :
    resourceAwsApiGatewayRestApiUpdateOperations d =
      nameOps d ++ descriptionOps d ++ policyOps d ++ minimumCompressionSizeOps d
        ++ binaryMediaTypesOps d ++ endpointConfigurationOps d
    ∧ (d.old.name = d.new.name → nameOps d = [])
    ∧ (d.old.description = d.new.description → descriptionOps d = [])
    ∧ (d.old.policy = d.new.policy → policyOps d = [])
    ∧ (d.old.minimum_compression_size = d.new.minimum_compression_size →
        minimumCompressionSizeOps d = [])
    ∧ (d.old.binary_media_types = d.new.binary_media_types → binaryMediaTypesOps d = [])
    ∧ (endpointTypes0 d.old = endpointTypes0 d.new → endpointConfigurationOps d = [])
    ∧ (d.old.name ≠ d.new.name →
        nameOps d = [{ op := "replace", path := "/name", value := some d.new.name }])
    ∧ (d.old.description ≠ d.new.description →
        descriptionOps d =
          [{ op := "replace", path := "/description", value := some d.new.description }])
    ∧ (d.old.policy ≠ d.new.policy →
        policyOps d = [{ op := "replace", path := "/policy", value := some d.new.policy }]) := by
  refine ⟨updateOperations_eq_groups d, ?_, ?_, ?_, ?_, ?_, ?_, ?_, ?_, ?_⟩ <;> intro h <;>
    simp [nameOps, descriptionOps, policyOps, minimumCompressionSizeOps,
      binaryMediaTypesOps, endpointConfigurationOps, h]

/-- C6: when the endpoint configuration types changed but the new configuration
list is empty — an attempt to clear the endpoint type — the generator emits no
operation for that field anywhere in the operation list (and, being a total
function into a plain list, raises no error); the replace of the type is emitted
exactly when the new configuration is non-empty. -/
theorem endpointConfiguration_clear_skipped (d : ResourceData)
    (h : endpointTypes0 d.old ≠ endpointTypes0 d.new) :
    (d.new.endpoint_configuration = [] →
      endpointConfigurationOps d = [] ∧
        ∀ p ∈ resourceAwsApiGatewayRestApiUpdateOperations d,
          p.path ≠ "/endpointConfiguration/types/0")
    ∧ ∀ m rest, d.new.endpoint_configuration = m :: rest →
        endpointConfigurationOps d =
          [{ op := "replace"
             path := "/endpointConfiguration/types/0"
             value := some (m.types.headD "") }] := by
  constructor
  · intro hepcNil
    have hops : endpointConfigurationOps d = [] := by
      simp [endpointConfigurationOps, hepcNil]
    refine ⟨hops, ?_⟩
    intro p hp
    rw [updateOperations_eq_groups d, hops, List.append_nil] at hp
    simp only [List.mem_append] at hp
    rcases hp with (((hp | hp) | hp) | hp) | hp
    · unfold nameOps at hp
      split at hp
      · simp only [List.mem_singleton] at hp
        subst hp
        show ("/name" : String) ≠ "/endpointConfiguration/types/0"
        decide
      · simp at hp
    · unfold descriptionOps at hp
      split at hp
      · simp only [List.mem_singleton] at hp
        subst hp
        show ("/description" : String) ≠ "/endpointConfiguration/types/0"
        decide
      · simp at hp
    · unfold policyOps at hp
      split at hp
      · simp only [List.mem_singleton] at hp
        subst hp
        show ("/policy" : String) ≠ "/endpointConfiguration/types/0"
        decide
      · simp at hp
    · unfold minimumCompressionSizeOps at hp
      split at hp
      · simp only [List.mem_singleton] at hp
        subst hp
        show ("/minimumCompressionSize" : String) ≠ "/endpointConfiguration/types/0"
        decide
      · simp at hp
    · unfold binaryMediaTypesOps at hp
      split at hp
      · simp only [List.mem_append, List.mem_map] at hp
        rcases hp with ⟨v, hv, heq⟩ | hp
        · subst heq
          exact bmtPathNe (escapeJsonPointer v)
        · split at hp
          · simp only [List.mem_map] at hp
            rcases hp with ⟨v, hv, heq⟩
            subst heq
            exact bmtPathNe (escapeJsonPointer v)
          · simp at hp
      · simp at hp
  · intro m rest hepc
    simp [endpointConfigurationOps, h, hepc]

/-- An attempt to clear the endpoint configuration: one EDGE block before, no
block after. -/
def c6Data : ResourceData :=
  { old := { blankRecord with endpoint_configuration := [{ types := ["EDGE"] }] }
    new := blankRecord }

theorem endpointConfiguration_clear_skipped_witness :
    (c6Data.new.endpoint_configuration = [] →
      endpointConfigurationOps c6Data = [] ∧
        ∀ p ∈ resourceAwsApiGatewayRestApiUpdateOperations c6Data,
          p.path ≠ "/endpointConfiguration/types/0")
    ∧ ∀ m rest, c6Data.new.endpoint_configuration = m :: rest →
        endpointConfigurationOps c6Data =
          [{ op := "replace"
             path := "/endpointConfiguration/types/0"
             value := some (m.types.headD "") }] :=
  endpointConfiguration_clear_skipped c6Data (by decide)

/-- What one run of a resource.Retry callback reports: done (nil), a retryable
error, or a non-retryable error. -/
inductive RetryOutcome where
  | done
  | retryableErr (e : AwsError)
  | nonRetryableErr (e : AwsError)
deriving DecidableEq

/-- How a resource.Retry call as a whole can fail: the deadline passed while the
last error was still retryable, or the callback reported a non-retryable
error. -/
inductive RetryFailure where
  | timedOut (e : AwsError)
  | aborted (e : AwsError)
deriving DecidableEq

/-- The SDK helper resource.Retry (an external dependency of the delete path):
the callback runs for attempt n; nil stops with success, a non-retryable error
stops with that error at once, and a retryable error waits and runs the callback
again until the deadline — the 10-minute window with backoff is abstracted into
fuel, the number of further attempts the window still allows. -/
def resourceRetry (f : Nat → RetryOutcome) : Nat → Nat → Option RetryFailure
  | fuel, n =>
    match f n with
    | .done => none
    | .nonRetryableErr e => some (.aborted e)
    | .retryableErr e =>
      match fuel with
      | 0 => some (.timedOut e)
      | fuel' + 1 => resourceRetry f fuel' (n + 1)

/-- The retry callback of resourceAwsApiGatewayRestApiDelete, lines 355-368:
trace n is the n-th remote DeleteRestApi call's result (none = success).  A
successful call and a NotFoundException both report done; every other error is
wrapped as non-retryable. -/
def deleteRetryFunc (trace : Nat → Option AwsError) (n : Nat) : RetryOutcome :=
  match trace n with
  | none => .done
  | some e => if e.code = "NotFoundException" then .done else .nonRetryableErr e

/-- resourceAwsApiGatewayRestApiDelete, lines 351-369: the delete call wrapped in
resource.Retry with the 10-minute deadline (the fuel). -/
def resourceAwsApiGatewayRestApiDelete (trace : Nat → Option AwsError) (fuel : Nat) :
    Option RetryFailure :=
  resourceRetry (deleteRetryFunc trace) fuel 0

/-- A remote that fails the first delete call with a transient-style service
error and succeeds from the second call on. -/
def transientThenOkTrace : Nat → Option AwsError := fun n =>
  if n = 0 then some { code := "ServiceUnavailableException", message := "throttled" } else none

/-- C2 counterexample: the first delete attempt fails with a transient service
error and the second attempt would succeed well inside the 10-minute window, yet
the delete aborts immediately with that error instead of retrying until the
underlying call succeeds. -/
theorem delete_transient_not_retried :
    transientThenOkTrace 1 = none ∧
    resourceAwsApiGatewayRestApiDelete transientThenOkTrace 600 =
      some (.aborted { code := "ServiceUnavailableException", message := "throttled" }) :=
  ⟨rfl, rfl⟩

/-- The delete outcome as a function of the first remote call alone: success when
it succeeds or reports NotFoundException, an immediate abort carrying the error
otherwise. -/
def deleteFirstCallOutcome (r : Option AwsError) : Option RetryFailure :=
  match r with
  | none => none
  | some e => if e.code = "NotFoundException" then none else some (.aborted e)

/-- C2 (amended): the delete callback classifies no error as retryable — a
successful or not-found first call is success and any other first-call error
aborts immediately — so the retry wrapper never runs a second attempt and the
result is fully determined by the first call, whatever the remaining window. -/
theorem delete_decided_by_first_call (trace : Nat → Option AwsError) (fuel : Nat) :
    resourceAwsApiGatewayRestApiDelete trace fuel = deleteFirstCallOutcome (trace 0) := by
  unfold resourceAwsApiGatewayRestApiDelete resourceRetry deleteRetryFunc deleteFirstCallOutcome
  cases trace 0 with
  | none => rfl
  | some e => by_cases h : e.code = "NotFoundException" <;> simp [h]

/-- C9: a delete whose remote call reports NotFoundException — the object is
already absent — returns success with no error surfaced. -/
theorem delete_notFound_is_success (trace : Nat → Option AwsError) (fuel : Nat) (e : AwsError)
    (h0 : trace 0 = some e) (hc : e.code = "NotFoundException") :
    resourceAwsApiGatewayRestApiDelete trace fuel = none := by
  unfold resourceAwsApiGatewayRestApiDelete resourceRetry deleteRetryFunc
  rw [h0]
  simp [hc]

/-- A remote on which every delete call reports the object absent. -/
def notFoundTrace : Nat → Option AwsError := fun _ =>
  some { code := "NotFoundException", message := "rest api gone" }

theorem delete_notFound_is_success_witness :
    resourceAwsApiGatewayRestApiDelete notFoundTrace 0 = none :=
  delete_notFound_is_success notFoundTrace 0
    { code := "NotFoundException", message := "rest api gone" } rfl rfl

/-- The account coordinates the handler reads from its client connection to
construct the execution ARN locally (lines 211-217). -/
structure AWSClientMeta where
  partition : String
  region : String
  accountid : String
deriving DecidableEq

/-- apigateway.RestApi, the fields the read path consumes; pointer-valued fields
are optional.  CreatedDate is carried already formatted: the RFC 3339 rendering
is done by the external time package. -/
structure RestApi where
  name : Option String
  description : Option String
  policy : Option String
  binaryMediaTypes : List String
  minimumCompressionSize : Option Int
  createdDate : String
  endpointConfiguration : Option EndpointBlock
deriving DecidableEq

/-- The error results the modelled handlers can return; each constructor is one
distinct error path of the source. -/
inductive OpError where
  | remote (e : AwsError)
  | unescapePolicy (s : String)
  | updateSpecWrapped (e : AwsError)
deriving DecidableEq

/-- aws.StringValue: a nil string pointer reads as the empty string. -/
def stringValue (o : Option String) : String := o.getD ""

/-- The arn.ARN String rendering of lines 211-217: partition, the fixed service
execute-api, region, account and the API identifier as the resource. -/
def arnString (m : AWSClientMeta) (resource : String) : String :=
  "arn:" ++ m.partition ++ ":execute-api:" ++ m.region ++ ":" ++ m.accountid ++ ":" ++ resource

/-- flattenApiGatewayEndpointConfiguration, lines 385-395: nil flattens to no
block, otherwise one block with the types list. -/
def flattenApiGatewayEndpointConfiguration (o : Option EndpointBlock) : List EndpointBlock :=
  match o with
  | none => []
  | some ec => [{ types := ec.types }]

/-- The numeric value of a hexadecimal digit, as strconv's unhex. -/
def hexDigitVal (c : Char) : Option Nat :=
  if '0' ≤ c ∧ c ≤ '9' then some (c.toNat - '0'.toNat)
  else if 'a' ≤ c ∧ c ≤ 'f' then some (c.toNat - 'a'.toNat + 10)
  else if 'A' ≤ c ∧ c ≤ 'F' then some (c.toNat - 'A'.toNat + 10)
  else none

/-- Whether a character is an octal digit. -/
def isOctalDigit (c : Char) : Bool := '0' ≤ c && c ≤ '7'

/-- The list of hexadecimal digit values folded into one number, high digit
first, as strconv.unquoteChar accumulates v = v<<4 | x; none when a character
is no hexadecimal digit. -/
def hexValList (l : List Char) : Option Nat :=
  l.foldl
    (fun acc c =>
      match acc, hexDigitVal c with
      | some v, some x => some (v * 16 + x)
      | _, _ => none)
    (some 0)

/-- The single-character escape sequences of a Go double-quoted string:
the character a simple escape stands for, none when the escape is not simple. -/
def simpleEscapeChar (e : Char) : Option Char :=
  if e = 'a' then some (Char.ofNat 7)
  else if e = 'b' then some (Char.ofNat 8)
  else if e = 'f' then some (Char.ofNat 12)
  else if e = 'n' then some '\n'
  else if e = 'r' then some '\r'
  else if e = 't' then some '\t'
  else if e = 'v' then some (Char.ofNat 11)
  else if e = '\\' then some '\\'
  else if e = '"' then some '"'
  else none

mutual

/-- Go strconv.Unquote (an external standard-library dependency) as the read
path applies it on line 203 — to the policy wrapped in added double quotes —
modelled over the list of characters between the quotes: a newline or an
unescaped quote (which would end the literal early and leave trailing input) is
a syntax error, a backslash starts an escape sequence, and every other
character stands for itself. -/
def unquoteChars : List Char → Option (List Char)
  | [] => some []
  | c :: rest =>
    if c = '"' ∨ c = '\n' then none
    else if c = '\\' then unquoteEscape rest
    else (unquoteChars rest).map (c :: ·)

/-- The character list following a backslash, strconv.unquoteChar's cases for a
double-quoted string: the simple escapes, then the two-, four- and
eight-hex-digit escapes, then the three-digit octal byte escape. -/
def unquoteEscape : List Char → Option (List Char)
  | [] => none
  | e :: rest2 =>
    match simpleEscapeChar e with
    | some c => (unquoteChars rest2).map (c :: ·)
    | none =>
      if e = 'x' then unquoteHex2 rest2
      else if e = 'u' then unquoteHex4 rest2
      else if e = 'U' then unquoteHex8 rest2
      else if isOctalDigit e then unquoteOctal e rest2
      else none

/-- A two-hex-digit byte escape after a backslash-x. -/
def unquoteHex2 : List Char → Option (List Char)
  | h1 :: h2 :: rest3 =>
    match hexValList [h1, h2] with
    | none => none
    | some v => (unquoteChars rest3).map (Char.ofNat v :: ·)
  | _ => none

/-- A four-hex-digit unicode escape after a backslash-u, rejected when the code
point is no valid rune, as utf8.ValidRune does. -/
def unquoteHex4 : List Char → Option (List Char)
  | h1 :: h2 :: h3 :: h4 :: rest3 =>
    match hexValList [h1, h2, h3, h4] with
    | none => none
    | some v =>
      if Nat.isValidChar v then (unquoteChars rest3).map (Char.ofNat v :: ·) else none
  | _ => none

/-- An eight-hex-digit unicode escape after a backslash-U, rejected when the
code point is no valid rune. -/
def unquoteHex8 : List Char → Option (List Char)
  | h1 :: h2 :: h3 :: h4 :: h5 :: h6 :: h7 :: h8 :: rest3 =>
    match hexValList [h1, h2, h3, h4, h5, h6, h7, h8] with
    | none => none
    | some v =>
      if Nat.isValidChar v then (unquoteChars rest3).map (Char.ofNat v :: ·) else none
  | _ => none

/-- A three-octal-digit byte escape, e being the already read first digit; the
value must fit in a byte. -/
def unquoteOctal (e : Char) : List Char → Option (List Char)
  | o2 :: o3 :: rest3 =>
    if isOctalDigit o2 && isOctalDigit o3 then
      if (e.toNat - 48) * 64 + (o2.toNat - 48) * 8 + (o3.toNat - 48) ≤ 255 then
        (unquoteChars rest3).map
          (Char.ofNat ((e.toNat - 48) * 64 + (o2.toNat - 48) * 8 + (o3.toNat - 48)) :: ·)
      else none
    else none
  | _ => none

end

theorem unquoteChars_cons_plain (c : Char) (r : List Char) (hq : c ≠ '"')
    (hn : c ≠ '\n') (hb : c ≠ '\\') :
    unquoteChars (c :: r) = (unquoteChars r).map (c :: ·) := by
  rw [unquoteChars]
  simp [hq, hn, hb]

theorem unquoteChars_cons_escape (e c : Char) (r : List Char)
    (h : simpleEscapeChar e = some c) :
    unquoteChars ('\\' :: e :: r) = (unquoteChars r).map (c :: ·) := by
  rw [unquoteChars]
  simp only [unquoteEscape, h]
  simp

/-- The read path's unescaping step: strconv.Unquote of the policy between added
double quotes, at the level of strings. -/
def policyUnquote (s : String) : Option String := (unquoteChars s.data).map String.mk

/-- Modelled from the spec: the remote service — an external dependency — returns
the policy "as an escaped JSON string", the submitted document with one added
level of backslash escaping; embedded quotes and backslashes gain a backslash
and the control characters newline, carriage return and tab are escaped as in
any JSON string encoding. -/
def escapeOneLevelChars : List Char → List Char
  | [] => []
  | c :: r =>
    if c = '"' ∨ c = '\\' then '\\' :: c :: escapeOneLevelChars r
    else if c = '\n' then '\\' :: 'n' :: escapeOneLevelChars r
    else if c = '\r' then '\\' :: 'r' :: escapeOneLevelChars r
    else if c = '\t' then '\\' :: 't' :: escapeOneLevelChars r
    else c :: escapeOneLevelChars r

/-- One level of backslash escaping at the level of strings. -/
def escapeOneLevel (s : String) : String := String.mk (escapeOneLevelChars s.data)

theorem unquoteChars_escapeOneLevelChars (p : List Char) :
    unquoteChars (escapeOneLevelChars p) = some p := by
  induction p with
  | nil => rfl
  | cons c r ih =>
    by_cases h1 : c = '"' ∨ c = '\\'
    · have hesc : escapeOneLevelChars (c :: r) = '\\' :: c :: escapeOneLevelChars r := by
        simp [escapeOneLevelChars, h1]
      have hs : simpleEscapeChar c = some c := by
        rcases h1 with h | h <;> subst h <;> rfl
      rw [hesc, unquoteChars_cons_escape c c _ hs, ih]
      rfl
    · have hq : c ≠ '"' := fun hx => h1 (Or.inl hx)
      have hb : c ≠ '\\' := fun hx => h1 (Or.inr hx)
      by_cases h2 : c = '\n'
      · subst h2
        have hesc : escapeOneLevelChars ('\n' :: r) = '\\' :: 'n' :: escapeOneLevelChars r := by
          simp [escapeOneLevelChars]
        rw [hesc, unquoteChars_cons_escape 'n' '\n' _ rfl, ih]
        rfl
      · by_cases h3 : c = '\r'
        · subst h3
          have hesc : escapeOneLevelChars ('\r' :: r) = '\\' :: 'r' :: escapeOneLevelChars r := by
            simp [escapeOneLevelChars]
          rw [hesc, unquoteChars_cons_escape 'r' '\r' _ rfl, ih]
          rfl
        · by_cases h4 : c = '\t'
          · subst h4
            have hesc : escapeOneLevelChars ('\t' :: r) = '\\' :: 't' :: escapeOneLevelChars r := by
              simp [escapeOneLevelChars]
            rw [hesc, unquoteChars_cons_escape 't' '\t' _ rfl, ih]
            rfl
          · have hesc : escapeOneLevelChars (c :: r) = c :: escapeOneLevelChars r := by
              simp [escapeOneLevelChars, h1, h2, h3, h4]
            rw [hesc, unquoteChars_cons_plain c _ hq h2 hb, ih]
            rfl

/-- resourceAwsApiGatewayRestApiRead, lines 182-234: the response of the remote
GetRestApi lookup is passed in as resp.  A NotFoundException clears the
identifier and succeeds; any other lookup error is returned; on success every
field is mapped back into the local record, the policy after reversing one
level of escaping — with its own error when that fails — and the execution ARN
constructed locally. -/
def resourceAwsApiGatewayRestApiRead (m : AWSClientMeta) (d : LocalRecord)
    (resp : Except AwsError RestApi) : Except OpError LocalRecord :=
  match resp with
  | .error e =>
    if e.code = "NotFoundException" then .ok { d with id := "" }
    else .error (.remote e)
  | .ok api =>
    match policyUnquote (stringValue api.policy) with
    | none => .error (.unescapePolicy (stringValue api.policy))
    | some policy =>
      .ok { d with
        name := stringValue api.name
        description := stringValue api.description
        policy := policy
        binary_media_types := api.binaryMediaTypes
        execution_arn := arnString m d.id
        minimum_compression_size :=
          match api.minimumCompressionSize with
          | none => -1
          | some v => v
        created_date := api.createdDate
        endpoint_configuration :=
          flattenApiGatewayEndpointConfiguration api.endpointConfiguration }

/-- C7: a read whose remote lookup fails with the not-found error code clears
the local record's identifier — the resource is treated as no longer present —
and returns success; every other lookup failure is returned as an error. -/
theorem read_notFound_clears_id (m : AWSClientMeta) (d : LocalRecord) (e : AwsError) :
    (e.code = "NotFoundException" →
      resourceAwsApiGatewayRestApiRead m d (.error e) = .ok { d with id := "" })
    ∧ (e.code ≠ "NotFoundException" →
      resourceAwsApiGatewayRestApiRead m d (.error e) = .error (.remote e)) := by
  unfold resourceAwsApiGatewayRestApiRead
  constructor <;> intro h <;> simp [h]

/-- C8: a policy submitted as JSON text and returned by the service with exactly
one added level of backslash escaping is recovered exactly by the read path's
unescaping step (the one-level unescape is a left inverse of the one-level
escape) and stored unchanged, and a response policy on which the unescaping
fails is reported as the distinct policy-unescape error. -/
theorem policy_escape_roundtrip (p s : String) (m : AWSClientMeta) (d : LocalRecord)
    (api failApi : RestApi)
    (hgood : api.policy = some (escapeOneLevel p))
    (hbad : failApi.policy = some s) (hfail : policyUnquote s = none) :
    policyUnquote (escapeOneLevel p) = some p
    ∧ (∃ r, resourceAwsApiGatewayRestApiRead m d (.ok api) = .ok r ∧ r.policy = p)
    ∧ resourceAwsApiGatewayRestApiRead m d (.ok failApi) = .error (.unescapePolicy s) := by
  have hpq : policyUnquote (escapeOneLevel p) = some p := by
    unfold policyUnquote escapeOneLevel
    rw [show (String.mk (escapeOneLevelChars p.data)).data = escapeOneLevelChars p.data from rfl]
    rw [unquoteChars_escapeOneLevelChars]
    cases p
    rfl
  refine ⟨hpq, ?_, ?_⟩
  · simp only [resourceAwsApiGatewayRestApiRead, hgood, stringValue, Option.getD_some, hpq]
    exact ⟨_, rfl, rfl⟩
  · simp only [resourceAwsApiGatewayRestApiRead, hbad, stringValue, Option.getD_some, hfail]

/-- Example client coordinates for the witnesses. -/
def exMeta : AWSClientMeta :=
  { partition := "aws", region := "us-east-1", accountid := "123456789012" }

/-- A remote RestApi response with every optional field absent. -/
def emptyRestApi : RestApi :=
  { name := none
    description := none
    policy := none
    binaryMediaTypes := []
    minimumCompressionSize := none
    createdDate := ""
    endpointConfiguration := none }

/-- A response whose policy is the one-level escape of a document holding a
quote and a backslash. -/
def c8GoodApi : RestApi := { emptyRestApi with policy := some (escapeOneLevel "a\"b\\c") }

/-- A response whose policy is not unescapable: a backslash starting no valid
escape sequence. -/
def c8BadApi : RestApi := { emptyRestApi with policy := some "\\q" }

theorem policy_escape_roundtrip_witness :
    policyUnquote (escapeOneLevel "a\"b\\c") = some "a\"b\\c"
    ∧ (∃ r, resourceAwsApiGatewayRestApiRead exMeta blankRecord (.ok c8GoodApi) = .ok r ∧
        r.policy = "a\"b\\c")
    ∧ resourceAwsApiGatewayRestApiRead exMeta blankRecord (.ok c8BadApi) =
        .error (.unescapePolicy "\\q") :=
  policy_escape_roundtrip "a\"b\\c" "\\q" exMeta blankRecord c8GoodApi c8BadApi rfl rfl
    (by decide)

/-- One remote call the update path can issue, with the request data the source
passes to it. -/
inductive ApiCall where
  | putRestApi (restApiId : String) (mode : String) (body : String)
  | updateRestApi (restApiId : String) (ops : List PatchOperation)
  | getRestApi (restApiId : String)
deriving DecidableEq

/-- apigateway.PutModeOverwrite. -/
def putModeOverwrite : String := "overwrite"

/-- The responses the remote service returns to the three calls the update path
can issue. -/
structure RemoteUpdateEnv where
  putRestApiResp : Except AwsError Unit
  updateRestApiResp : Except AwsError Unit
  getRestApiResp : Except AwsError RestApi

/-- The tail of resourceAwsApiGatewayRestApiUpdate from line 338 on: the
UpdateRestApi call with the generated patch operations, issued unconditionally,
whose failure is returned as is; on success the full read-back of line 348.
calls holds the remote calls issued so far; the result pairs the handler's
return value with all calls issued, in order. -/
def updateRestApiStep (m : AWSClientMeta) (d : ResourceData) (env : RemoteUpdateEnv)
    (calls : List ApiCall) : Except OpError LocalRecord × List ApiCall :=
  let calls := calls ++
    [ApiCall.updateRestApi d.new.id (resourceAwsApiGatewayRestApiUpdateOperations d)]
  match env.updateRestApiResp with
  | .error e => (.error (.remote e), calls)
  | .ok _ =>
    (resourceAwsApiGatewayRestApiRead m d.new env.getRestApiResp,
      calls ++ [ApiCall.getRestApi d.new.id])

/-- resourceAwsApiGatewayRestApiUpdate, lines 320-349: when the body changed and
the new body is present (d.GetOk), a PutRestApi call in overwrite mode
re-applies the full definition document before anything else, and its failure is
wrapped as the distinct specification error, aborting the update; then the patch
call and the read-back follow. -/
def resourceAwsApiGatewayRestApiUpdate (m : AWSClientMeta) (d : ResourceData)
    (env : RemoteUpdateEnv) : Except OpError LocalRecord × List ApiCall :=
  if d.old.body ≠ d.new.body ∧ d.new.body ≠ "" then
    match env.putRestApiResp with
    | .error e =>
      (.error (.updateSpecWrapped e),
        [ApiCall.putRestApi d.new.id putModeOverwrite d.new.body])
    | .ok _ =>
      updateRestApiStep m d env [ApiCall.putRestApi d.new.id putModeOverwrite d.new.body]
  else
    updateRestApiStep m d env []

/-- An update that removes the body: it changed from a document to the empty
string. -/
def c3Data : ResourceData :=
  { old := { blankRecord with id := "api123", body := "openapi-doc" }
    new := { blankRecord with id := "api123" } }

/-- A remote that answers every call of the update path successfully. -/
def c3OkEnv : RemoteUpdateEnv :=
  { putRestApiResp := .ok ()
    updateRestApiResp := .ok ()
    getRestApiResp := .ok emptyRestApi }

/-- C3 counterexample: the body field changed between old and new state (the
document was removed), yet no overwrite call is issued at all — the remote calls
are exactly the patch call and the read-back lookup. -/
theorem update_body_changed_no_overwrite :
    c3Data.old.body ≠ c3Data.new.body ∧
    (resourceAwsApiGatewayRestApiUpdate exMeta c3Data c3OkEnv).2 =
      [ApiCall.updateRestApi "api123" [], ApiCall.getRestApi "api123"] := by
  constructor
  · decide
  · rfl

/-- C3 (amended): when the body changed and the new body is present (non-empty),
the overwrite call carrying the full definition document precedes every other
remote call of the update, and a failure of that call is reported as the
distinct wrapped specification error, with no patch call issued at all. -/
theorem update_body_overwrite_first (m : AWSClientMeta) (d : ResourceData)
    (env : RemoteUpdateEnv) (h1 : d.old.body ≠ d.new.body) (h2 : d.new.body ≠ "") :
    (resourceAwsApiGatewayRestApiUpdate m d env).2.head? =
      some (ApiCall.putRestApi d.new.id putModeOverwrite d.new.body)
    ∧ (∀ e, env.putRestApiResp = .error e →
        resourceAwsApiGatewayRestApiUpdate m d env =
          (.error (.updateSpecWrapped e),
            [ApiCall.putRestApi d.new.id putModeOverwrite d.new.body])) := by
  unfold resourceAwsApiGatewayRestApiUpdate
  rw [if_pos ⟨h1, h2⟩]
  constructor
  · cases henv : env.putRestApiResp with
    | error e => rfl
    | ok u =>
      unfold updateRestApiStep
      cases env.updateRestApiResp <;> rfl
  · intro e he
    rw [he]

/-- An update that introduces a body document. -/
def c3bData : ResourceData :=
  { old := { blankRecord with id := "api123" }
    new := { blankRecord with id := "api123", body := "openapi-doc" } }

/-- A remote that rejects the overwrite call. -/
def c3FailEnv : RemoteUpdateEnv :=
  { putRestApiResp := .error { code := "BadRequestException", message := "invalid document" }
    updateRestApiResp := .ok ()
    getRestApiResp := .ok emptyRestApi }

theorem update_body_overwrite_first_witness :
    (resourceAwsApiGatewayRestApiUpdate exMeta c3bData c3FailEnv).2.head? =
      some (ApiCall.putRestApi c3bData.new.id putModeOverwrite c3bData.new.body)
    ∧ (∀ e, c3FailEnv.putRestApiResp = .error e →
        resourceAwsApiGatewayRestApiUpdate exMeta c3bData c3FailEnv =
          (.error (.updateSpecWrapped e),
            [ApiCall.putRestApi c3bData.new.id putModeOverwrite c3bData.new.body])) :=
  update_body_overwrite_first exMeta c3bData c3FailEnv (by decide) (by decide)

end ApiGatewayRestApi
